import Mathlib

/-!
Verification of the Nimble semantic analyser and MIPS code generator
(`semantics/nimble_analyser.py`, `semantics/nimblesemantics.py`,
`nimble2MIPS.py`, `templates.py`) against its natural-language
specification.

The Python source is shallowly embedded: each listener method becomes a
Lean function on the data it reads and writes (the current scope, the
error log, the per-node annotations), and the two analysis passes become
explicit walks over an algebraic syntax tree.  Python exceptions
(`AttributeError` from an attribute access on `None`, `KeyError` from an
enum lookup, and the explicitly raised `NimbleSemanticErrors`) are
modelled with `Except`.

The `symboltable` and `errorlog` modules of the repository are not part
of the provided sources; the definitions for `PrimitiveType`, `Symbol`,
`Scope`, and the error categories are modelled from the specification
(sections 3, 4.1 and 4.2) and are marked as such in their doc comments.
-/

namespace Nimble

/-- Abbreviation for Lean's string type, needed inside the `PrimitiveType`
namespace where the plain name `String` denotes a constructor. -/
abbrev Str := String

/-- Modelled from the spec (section 3): `PrimitiveType` is the enumeration
`{Int, Bool, String, Void, ERROR}` from the missing `symboltable` module. -/
inductive PrimitiveType where
  | Int
  | Bool
  | String
  | Void
  | ERROR
deriving DecidableEq

/-- Python `PrimitiveType[name]` lookup (string-keyed enum access), used by
`exitVarDec` as `PrimitiveType[ctx.TYPE().getText()]`.  An unknown key raises
`KeyError`, modelled by `none`.  `ERROR`, `Void` are not surface type tokens
but Python's `Enum.__getitem__` would find them, so they are included. -/
def PrimitiveType.fromName : Str → Option PrimitiveType
  | "Int" => some .Int
  | "Bool" => some .Bool
  | "String" => some .String
  | "Void" => some .Void
  | "ERROR" => some .ERROR
  | _ => none

/-- Python truthiness of a `PrimitiveType` value, used by the source's
`if not _type:` tests.  Members of a Python `Enum` are always truthy, so
this is constantly `false`. -/
def PrimitiveType.pyFalsy : PrimitiveType → Prop := fun _ => False

instance (t : PrimitiveType) : Decidable t.pyFalsy := .isFalse (fun h => h)

/-- Modelled from the spec (section 4.2): the closed set of semantic error
categories of the missing `errorlog` module. -/
inductive Category where
  | UNSUPPORTED_LANGUAGE_FEATURE
  | DUPLICATE_NAME
  | UNDEFINED_NAME
  | ASSIGN_TO_WRONG_TYPE
  | INVALID_RETURN
  | CONDITION_NOT_BOOL
  | UNPRINTABLE_EXPRESSION
  | INVALID_NEGATION
  | INVALID_BINARY_OP
deriving DecidableEq

/-- Modelled from the spec (section 4.2): the `ErrorLog` is the ordered,
append-only sequence of entries; `add` appends, `total_entries` is the
cardinality.  Each entry also carries a human-readable message and the
offending node, which no property below depends on, so an entry is
represented by its category. -/
abbrev ErrorLog := List Category

/-- The `total_entries()` accessor of the error log. -/
def ErrorLog.total_entries (log : ErrorLog) : Nat := log.length

/-- Modelled from the spec (glossary): a `Symbol` is a declared name paired
with its type within one scope. -/
structure Symbol where
  name : String
  type : PrimitiveType
deriving DecidableEq

/-- Modelled from the spec (sections 3, 4.1): a `Scope` has a name tag, a
declared return type, an enclosing-scope reference (`None` for the
outermost, here the `outer` constructor), and the declared symbols.  The
constructors split on whether the enclosing reference is `None`, which keeps
the chain a plain inductive value. -/
inductive Scope where
  | outer (name : String) (return_type : PrimitiveType) (symbols : List Symbol)
  | inner (name : String) (return_type : PrimitiveType) (enclosing : Scope) (symbols : List Symbol)
deriving DecidableEq

/-- The `enclosing_scope` attribute: `None` for the outermost scope. -/
def Scope.enclosing_scope : Scope → Option Scope
  | .outer _ _ _ => none
  | .inner _ _ enc _ => some enc

/-- The symbols defined directly in this scope. -/
def Scope.symbols : Scope → List Symbol
  | .outer _ _ syms => syms
  | .inner _ _ _ syms => syms

/-- Modelled from the spec (section 4.1): `resolve_locally(name)` returns the
Symbol if present in exactly this scope, else none. -/
def Scope.resolve_locally (sc : Scope) (n : String) : Option Symbol :=
  sc.symbols.find? (fun s => s.name == n)

/-- Modelled from the spec (section 4.1): `define(name, type)` inserts into
the current scope (caller has already excluded a local duplicate). -/
def Scope.define (sc : Scope) (n : String) (t : PrimitiveType) : Scope :=
  match sc with
  | .outer nm rt syms => .outer nm rt (syms ++ [⟨n, t⟩])
  | .inner nm rt enc syms => .inner nm rt enc (syms ++ [⟨n, t⟩])

/-- Modelled from the spec (section 4.1): `resolve(name)` searches this
scope, then its enclosing chain outward; returns the nearest match or none. -/
def Scope.resolve : Scope → String → Option Symbol
  | .outer _ _ syms, n => syms.find? (fun s => s.name == n)
  | .inner _ _ enc syms, n =>
    match syms.find? (fun s => s.name == n) with
    | some s => some s
    | none => enc.resolve n

/-- Python exceptions that the embedded analysis can raise and does not
catch: an attribute access on `None` raises `AttributeError`; an enum
lookup with an unknown key raises `KeyError`. -/
inductive PyError where
  | attributeError
  | keyError
deriving DecidableEq

/-- Exceptions escaping `do_semantic_analysis`: either an uncaught Python
error from a pass, or the explicitly raised `NimbleSemanticErrors`
aggregate carrying the full error log. -/
inductive PyExn where
  | attributeError
  | keyError
  | nimbleSemanticErrors (log : List Category)
deriving DecidableEq

/-!
The syntax tree, as produced by the external parser for the function-free
Nimble subset this implementation handles (`script : main`, a body made of
a `varBlock` of declarations followed by a block of statements).  Function
definitions, function calls and `return` statements are omitted: the
analyser rejects the first two outright with `UNSUPPORTED_LANGUAGE_FEATURE`
and none of the verified properties involves them.
-/

/-- Expression nodes, one constructor per labelled `expr` alternative of the
grammar (the `Variable` alternative is named `varRef` because `variable` is
a Lean keyword).  Operators are carried as their token text, as the
listeners read them via `ctx.op.text`. -/
inductive Expr where
  | intLiteral (value : Int)
  | boolLiteral (value : Bool)
  | stringLiteral (text : String)
  | varRef (name : String)
  | neg (op : String) (e : Expr)
  | parens (e : Expr)
  | mulDiv (op : String) (e0 e1 : Expr)
  | addSub (op : String) (e0 e1 : Expr)
  | compare (op : String) (e0 e1 : Expr)
deriving DecidableEq

/-- A `varDec`: `var ID : TYPE (= expr)?`.  The type token is kept as text;
the analyser looks it up with `PrimitiveType[...]`. -/
structure VarDec where
  id : String
  typeToken : String
  init : Option Expr
deriving DecidableEq

mutual
/-- Statement nodes of the function-free subset. -/
inductive Statement where
  | assignment (id : String) (e : Expr)
  | ifThen (cond : Expr) (thenBlock : Block)
  | ifThenElse (cond : Expr) (thenBlock : Block) (elseBlock : Block)
  | whileLoop (cond : Expr) (body : Block)
  | print (e : Expr)
deriving DecidableEq

/-- A block is a sequence of statements. -/
inductive Block where
  | nil
  | cons (s : Statement) (rest : Block)
deriving DecidableEq
end

/-- A `body`: a `varBlock` of declarations followed by a statement block. -/
structure Body where
  varBlock : List VarDec
  block : Block
deriving DecidableEq

/-- A `script` for the function-free subset: its single `main`, which holds
a body. -/
structure Script where
  body : Body
deriving DecidableEq

/-!
Pass 1: `DefineScopesAndSymbols` (`nimblesemantics.py`).  Each listener
method is embedded as a function of the state it touches (the current
scope and the shared error log); `pass1` is the `ParseTreeWalker` walk.
-/

namespace DefineScopesAndSymbols

/-- `duplicate_name` (`nimblesemantics.py` lines 63-69): if `resolve_locally`
already finds the name, log `DUPLICATE_NAME` and report `true`. -/
def duplicate_name (current_scope : Scope) (log : ErrorLog) (name : String) :
    Bool × ErrorLog :=
  match current_scope.resolve_locally name with
  | some _ => (true, log ++ [Category.DUPLICATE_NAME])
  | none => (false, log)

/-- `exitVarDec` (`nimblesemantics.py` lines 71-75): unless the name is a
local duplicate, look the type token up by name (`PrimitiveType[...]`,
`KeyError` on an unknown token) and `define` the name. -/
def exitVarDec (current_scope : Scope) (log : ErrorLog) (v : VarDec) :
    Except PyError (Scope × ErrorLog) :=
  match duplicate_name current_scope log v.id with
  | (true, log') => .ok (current_scope, log')
  | (false, log') =>
    match PrimitiveType.fromName v.typeToken with
    | some t => .ok (current_scope.define v.id t, log')
    | none => .error .keyError

end DefineScopesAndSymbols

/-- Pass 1 over the `varBlock`: `exitVarDec` fires for each declaration in
order; pass 1 declares no other handlers reachable in the function-free
subset. -/
def pass1VarBlock : Scope → ErrorLog → List VarDec → Except PyError (Scope × ErrorLog)
  | sc, log, [] => .ok (sc, log)
  | sc, log, v :: vs => do
    let (sc', log') ← DefineScopesAndSymbols.exitVarDec sc log v
    pass1VarBlock sc' log' vs

/-- The full pass-1 walk (`walker.walk(DefineScopesAndSymbols(errors), tree)`):
`enterScript` creates the `$global` scope and annotates the script with it,
`enterMain` creates the `$main` child scope and annotates the main, the
`varBlock` registers the declarations (mutating the main scope), and
`exitMain` pops back out.  The result carries the two `scope` annotations
(in their final, fully mutated state) and the error log. -/
def pass1 (s : Script) : Except PyError (Scope × Scope × ErrorLog) := do
  let global_scope := Scope.outer "$global" PrimitiveType.Void []
  let main_scope := Scope.inner "$main" PrimitiveType.Void global_scope []
  let (main', log) ← pass1VarBlock main_scope [] s.body.varBlock
  .ok (global_scope, main', log)

/-!
Pass 2: `InferTypesAndCheckConstraints` (`nimblesemantics.py`).  Expression
handlers return the `type` annotation they patch onto their node; statement
handlers return the updated error log.  Attribute accesses on `None`
(`self.current_scope` when unset, and the result of a failed `resolve`)
raise `AttributeError`.
-/

namespace InferTypesAndCheckConstraints

/-- `enterScript` (`nimblesemantics.py` lines 84-85):
`self.current_scope = self.current_scope.enclosing_scope`.  The listener is
constructed with `current_scope = None`, so the attribute access is on
`None` whenever this fires first. -/
def enterScript (current_scope : Option Scope) : Except PyError (Option Scope) :=
  match current_scope with
  | none => .error .attributeError
  | some sc => .ok sc.enclosing_scope

/-- `exitMain`: `self.current_scope = self.current_scope.enclosing_scope`. -/
def exitMain (current_scope : Option Scope) : Except PyError (Option Scope) :=
  match current_scope with
  | none => .error .attributeError
  | some sc => .ok sc.enclosing_scope

/-- `log_invalid_assign`: append an `ASSIGN_TO_WRONG_TYPE` entry. -/
def log_invalid_assign (log : ErrorLog) : ErrorLog :=
  log ++ [Category.ASSIGN_TO_WRONG_TYPE]

/-- Pass 2 `exitVarDec` (`nimblesemantics.py` lines 101-104): re-look up the
declared type token and compare it against the initializer's type when an
initializer is present. -/
def exitVarDec (log : ErrorLog) (typeToken : String)
    (initType : Option PrimitiveType) : Except PyError ErrorLog :=
  match PrimitiveType.fromName typeToken with
  | none => .error .keyError
  | some t =>
    match initType with
    | some it => if t ≠ it then .ok (log_invalid_assign log) else .ok log
    | none => .ok log

/-- `exitAssignment` (`nimblesemantics.py` lines 114-121):
`_type = self.current_scope.resolve(name).type` followed by
`if not _type: ... UNDEFINED_NAME ... elif _type != ctx.expr().type: ...`.
When `resolve` returns `None`, the `.type` access raises `AttributeError`;
when it returns a symbol, `not _type` is always false for an enum member
(`PrimitiveType.pyFalsy`), so the `UNDEFINED_NAME` branch is dead code. -/
def exitAssignment (current_scope : Option Scope) (name : String)
    (exprType : PrimitiveType) (log : ErrorLog) : Except PyError ErrorLog :=
  match current_scope with
  | none => .error .attributeError
  | some sc =>
    match sc.resolve name with
    | none => .error .attributeError
    | some sym =>
      if sym.type.pyFalsy then .ok (log ++ [Category.UNDEFINED_NAME])
      else if sym.type ≠ exprType then .ok (log_invalid_assign log)
      else .ok log

/-- `check_boolean_condition`: log `CONDITION_NOT_BOOL` unless the condition
expression has type `Bool`.  `exitWhile` and `exitIf` both delegate here. -/
def check_boolean_condition (condType : PrimitiveType) (log : ErrorLog) : ErrorLog :=
  if condType ≠ PrimitiveType.Bool then log ++ [Category.CONDITION_NOT_BOOL] else log

/-- Pass 2 `exitPrint`: log `UNPRINTABLE_EXPRESSION` when the printed
expression has type `ERROR`. -/
def exitPrint (exprType : PrimitiveType) (log : ErrorLog) : ErrorLog :=
  if exprType = PrimitiveType.ERROR then log ++ [Category.UNPRINTABLE_EXPRESSION] else log

/-- `exitNeg` (`nimblesemantics.py` lines 149-157): `-` on `Int` gives `Int`,
`!` on `Bool` gives `Bool`, anything else gives `ERROR` plus one
`INVALID_NEGATION` entry. -/
def exitNeg (op : String) (operandType : PrimitiveType) (log : ErrorLog) :
    PrimitiveType × ErrorLog :=
  if op = "-" ∧ operandType = PrimitiveType.Int then (PrimitiveType.Int, log)
  else if op = "!" ∧ operandType = PrimitiveType.Bool then (PrimitiveType.Bool, log)
  else (PrimitiveType.ERROR, log ++ [Category.INVALID_NEGATION])

/-- `binary_on_ints` (`nimblesemantics.py` lines 162-168): both operands
`Int` gives `result_type`; anything else gives `ERROR` plus one
`INVALID_BINARY_OP` entry. -/
def binary_on_ints (t0 t1 result_type : PrimitiveType) (log : ErrorLog) :
    PrimitiveType × ErrorLog :=
  if t0 = PrimitiveType.Int ∧ t1 = PrimitiveType.Int then (result_type, log)
  else (PrimitiveType.ERROR, log ++ [Category.INVALID_BINARY_OP])

/-- `exitMulDiv`: both-`Int` rule with result `Int` (the operator token is
only used in the error message). -/
def exitMulDiv (_op : String) (t0 t1 : PrimitiveType) (log : ErrorLog) :
    PrimitiveType × ErrorLog :=
  binary_on_ints t0 t1 PrimitiveType.Int log

/-- `exitAddSub` (`nimblesemantics.py` lines 170-177): `+` on two `String`
operands gives `String`; otherwise the both-`Int` rule with result `Int`. -/
def exitAddSub (op : String) (t0 t1 : PrimitiveType) (log : ErrorLog) :
    PrimitiveType × ErrorLog :=
  if op = "+" ∧ t0 = PrimitiveType.String ∧ t1 = PrimitiveType.String then
    (PrimitiveType.String, log)
  else binary_on_ints t0 t1 PrimitiveType.Int log

/-- `exitCompare`: both-`Int` rule with result `Bool`. -/
def exitCompare (_op : String) (t0 t1 : PrimitiveType) (log : ErrorLog) :
    PrimitiveType × ErrorLog :=
  binary_on_ints t0 t1 PrimitiveType.Bool log

/-- `exitVariable` (`nimblesemantics.py` lines 184-192):
`_type = self.current_scope.resolve(name).type` followed by
`if not _type: ... UNDEFINED_NAME ... else: ctx.type = _type`.  As in
`exitAssignment`, a failed `resolve` makes the `.type` access raise
`AttributeError`, and the `UNDEFINED_NAME` branch is dead because enum
members are truthy. -/
def exitVariable (current_scope : Option Scope) (name : String) (log : ErrorLog) :
    Except PyError (PrimitiveType × ErrorLog) :=
  match current_scope with
  | none => .error .attributeError
  | some sc =>
    match sc.resolve name with
    | none => .error .attributeError
    | some sym =>
      if sym.type.pyFalsy then .ok (PrimitiveType.ERROR, log ++ [Category.UNDEFINED_NAME])
      else .ok (sym.type, log)

end InferTypesAndCheckConstraints

/-- The pass-2 walk over an expression subtree: children first, then the
node's own exit handler; returns the node's `type` annotation and the
updated log. -/
def walkExpr (cs : Option Scope) (log : ErrorLog) : Expr → Except PyError (PrimitiveType × ErrorLog)
  | .intLiteral _ => .ok (PrimitiveType.Int, log)
  | .boolLiteral _ => .ok (PrimitiveType.Bool, log)
  | .stringLiteral _ => .ok (PrimitiveType.String, log)
  | .varRef n => InferTypesAndCheckConstraints.exitVariable cs n log
  | .neg op e => do
    let (t, log') ← walkExpr cs log e
    .ok (InferTypesAndCheckConstraints.exitNeg op t log')
  | .parens e => walkExpr cs log e
  | .mulDiv op e0 e1 => do
    let (t0, log') ← walkExpr cs log e0
    let (t1, log'') ← walkExpr cs log' e1
    .ok (InferTypesAndCheckConstraints.exitMulDiv op t0 t1 log'')
  | .addSub op e0 e1 => do
    let (t0, log') ← walkExpr cs log e0
    let (t1, log'') ← walkExpr cs log' e1
    .ok (InferTypesAndCheckConstraints.exitAddSub op t0 t1 log'')
  | .compare op e0 e1 => do
    let (t0, log') ← walkExpr cs log e0
    let (t1, log'') ← walkExpr cs log' e1
    .ok (InferTypesAndCheckConstraints.exitCompare op t0 t1 log'')

mutual
/-- The pass-2 walk over one statement: children in document order, then the
statement's exit handler. -/
def walkStmt (cs : Option Scope) (log : ErrorLog) : Statement → Except PyError ErrorLog
  | .assignment id e => do
    let (t, log') ← walkExpr cs log e
    InferTypesAndCheckConstraints.exitAssignment cs id t log'
  | .ifThen cond thenB => do
    let (tc, log') ← walkExpr cs log cond
    let log'' ← walkBlock cs log' thenB
    .ok (InferTypesAndCheckConstraints.check_boolean_condition tc log'')
  | .ifThenElse cond thenB elseB => do
    let (tc, log') ← walkExpr cs log cond
    let log'' ← walkBlock cs log' thenB
    let log''' ← walkBlock cs log'' elseB
    .ok (InferTypesAndCheckConstraints.check_boolean_condition tc log''')
  | .whileLoop cond body => do
    let (tc, log') ← walkExpr cs log cond
    let log'' ← walkBlock cs log' body
    .ok (InferTypesAndCheckConstraints.check_boolean_condition tc log'')
  | .print e => do
    let (t, log') ← walkExpr cs log e
    .ok (InferTypesAndCheckConstraints.exitPrint t log')

/-- The pass-2 walk over a statement block, in order. -/
def walkBlock (cs : Option Scope) (log : ErrorLog) : Block → Except PyError ErrorLog
  | .nil => .ok log
  | .cons s rest => do
    let log' ← walkStmt cs log s
    walkBlock cs log' rest
end

/-- The pass-2 walk over one `varDec`: the initializer expression (a child)
is walked first, then `exitVarDec` fires. -/
def pass2VarDec (cs : Option Scope) (log : ErrorLog) (v : VarDec) : Except PyError ErrorLog := do
  let (it, log') ← match v.init with
    | some e => (walkExpr cs log e).map (fun r => (some r.1, r.2))
    | none => .ok ((none : Option PrimitiveType), log)
  InferTypesAndCheckConstraints.exitVarDec log' v.typeToken it

/-- The pass-2 walk over the `varBlock`. -/
def pass2VarBlock (cs : Option Scope) : ErrorLog → List VarDec → Except PyError ErrorLog
  | log, [] => .ok log
  | log, v :: vs => do
    let log' ← pass2VarDec cs log v
    pass2VarBlock cs log' vs

/-- The full pass-2 walk
(`walker.walk(InferTypesAndCheckConstraints(errors), tree)`).  The listener
is constructed with `current_scope = None`; `enterScript` then reassigns it
from `self.current_scope.enclosing_scope` — it never reads the script's
`scope` annotation, so the annotation parameters go unused.  If
`enterScript` survived, `enterMain` would install the main `scope`
annotation and the body would be walked in it. -/
def pass2 (s : Script) (_script_scope : Scope) (main_scope : Scope)
    (log : ErrorLog) : Except PyError ErrorLog := do
  let _cs ← InferTypesAndCheckConstraints.enterScript none
  let cs := some main_scope
  let log' ← pass2VarBlock cs log s.body.varBlock
  let log'' ← walkBlock cs log' s.body.block
  let _cs' ← InferTypesAndCheckConstraints.exitMain cs
  .ok log''

/-- Lift an uncaught Python error out of `do_semantic_analysis`. -/
def PyExn.ofPyError : PyError → PyExn
  | .attributeError => .attributeError
  | .keyError => .keyError

/-- `do_semantic_analysis` (`nimble_analyser.py` lines 15-23): run both
walks over the tree with a shared fresh error log, then raise
`NimbleSemanticErrors` when `total_entries()` is positive, else return the
tree. -/
def do_semantic_analysis (s : Script) : Except PyExn Script :=
  match pass1 s with
  | .error e => .error (PyExn.ofPyError e)
  | .ok (script_scope, main_scope, log1) =>
    match pass2 s script_scope main_scope log1 with
    | .error e => .error (PyExn.ofPyError e)
    | .ok log2 =>
      if log2.total_entries > 0 then .error (.nimbleSemanticErrors log2) else .ok s

/-!
Code generation: `nimble2MIPS.py` and `templates.py`.  The
`MIPSGenerator` listener's mutable state is `label_index` (a Python int
starting at `-1`) and the `string_literals` insertion-ordered dict; each
handler is embedded as a function of that state and of the `mips`
annotations of its children.  Handlers whose body is `pass` write no
`mips` annotation, which is modelled by returning `none`.
-/

/-- Fuel-driven digit accumulator (structural recursion on the fuel, like
core's `Nat.toDigitsCore`, so that concrete values reduce in the kernel).
With fuel above `n` it produces the decimal digit sequence of `n`, most
significant first. -/
def decimalCharsAux : Nat → Nat → List Char
  | 0, _ => []
  | fuel + 1, n =>
    if n < 10 then [Nat.digitChar n]
    else decimalCharsAux fuel (n / 10) ++ [Nat.digitChar (n % 10)]

/-- Decimal digit sequence of a natural number, most significant first,
following Python's `str` of a non-negative `int` (no sign, no leading
zeros, `"0"` for zero).  `n + 1` units of fuel always suffice. -/
def decimalChars (n : Nat) : List Char := decimalCharsAux (n + 1) n

/-- Python's `str` of a non-negative `int`, as a string. -/
def decimal (n : Nat) : String := ⟨decimalChars n⟩

/-- Python's `str` of an arbitrary `int` (the f-string conversion applied
to `label_index`). -/
def pyStr (i : Int) : String :=
  if i < 0 then "-" ++ decimal i.natAbs else decimal i.toNat

/-- The `MIPSGenerator` listener state (`nimble2MIPS.py` lines 18-21):
`label_index` starts at `-1`, `string_literals` is an empty dict and
`current_scope` is `None`. -/
structure MIPSGenerator where
  label_index : Int
  string_literals : List (String × String)
  current_scope : Option Scope
deriving DecidableEq

/-- A freshly constructed `MIPSGenerator`. -/
def MIPSGenerator.new : MIPSGenerator := ⟨-1, [], none⟩

/-- `unique_label` (`nimble2MIPS.py` lines 23-29): increment `label_index`
and return `f'{base}_{self.label_index}'`. -/
def MIPSGenerator.unique_label (g : MIPSGenerator) (base : String) :
    String × MIPSGenerator :=
  let i := g.label_index + 1
  (base ++ "_" ++ pyStr i, { g with label_index := i })

/-- Assignment into a Python dict (`d[k] = v`): replace the value if the
key is present, else append the pair, preserving insertion order. -/
def dictSet (d : List (String × String)) (k v : String) : List (String × String) :=
  if d.any (fun p => p.1 == k) then
    d.map (fun p => if p.1 == k then (k, v) else p)
  else d ++ [(k, v)]

namespace templates

/-- The `script` template of `templates.py`: the fixed envelope with the
data section (two fixed literals plus the pooled ones), the shared
`true_false_string` subroutine, the main body and the halt sequence. -/
def script (string_literals main : String) : String :=
  ".data\n\ntrue_string: .asciiz \"true\"\nfalse_string: .asciiz \"false\"\n    \n"
    ++ string_literals
    ++ "\n\n.text\n\ntrue_false_string:\nbeq    $t0 $zero choose_false\nla     $a0 true_string\nj      end_true_false_string\nchoose_false:\nla     $a0 false_string\nend_true_false_string:\njr     $ra\n\nmain: \n\n"
    ++ main
    ++ "\n\nhalt:\n\nli $v0 10\nsyscall\n"

/-- The `add_sub` template: left fragment, push the accumulator `$t0` onto
the `$sp` stack, right fragment, pop the left value into `$s1`, combine
with `add`/`sub` into `$t0`.  (Several template lines carry a trailing
space, reproduced here.) -/
def add_sub (operation expr0 expr1 : String) : String :=
  expr0
    ++ "\nsw     $t0 0($sp) \naddiu  $sp $sp -4 \n"
    ++ expr1
    ++ "\nlw     $s1 4($sp) \n"
    ++ operation
    ++ "    $t0 $s1 $t0 \naddiu  $sp $sp 4\n"

/-- The `if_` template: condition fragment, compare against 0, branch past
the true block to the end label. -/
def if_ (condition true_block endif_label : String) : String :=
  condition
    ++ "\nli     $t1 0\nbeq    $t0 $t1 "
    ++ endif_label
    ++ "\n"
    ++ true_block
    ++ "\n"
    ++ endif_label
    ++ ":\n"

/-- The `print_int_or_string` template: expression fragment, move the
accumulator to `$a0`, load the service code, `syscall`. -/
def print_int_or_string (expr : String) (service_code : Int) : String :=
  expr ++ "\nmove   $a0 $t0\nli     $v0 " ++ pyStr service_code ++ "\nsyscall\n"

/-- The `print_bool` template: expression fragment, call the shared
`true_false_string` subroutine (which leaves the string address in `$a0`),
then the string print service. -/
def print_bool (expr : String) : String :=
  expr ++ "\njal    true_false_string\nli     $v0 4\nsyscall\n"

end templates

namespace MIPSGenerator

/-- `exitStringLiteral` (`nimble2MIPS.py` lines 58-61): allocate a fresh
`'string'`-based label, record the literal text under it in the pool, and
load the label's address into the accumulator. -/
def exitStringLiteral (g : MIPSGenerator) (text : String) : String × MIPSGenerator :=
  let (label, g') := g.unique_label "string"
  ("la     $t0 " ++ label, { g' with string_literals := dictSet g'.string_literals label text })

/-- `exitPrint` (`nimble2MIPS.py` lines 63-75): `Bool` routes through the
`print_bool` template; otherwise `print_int_or_string` with service code 1
for `Int` and 4 otherwise (i.e. for `String`). -/
def exitPrint (exprType : PrimitiveType) (exprMips : String) : String :=
  if exprType = PrimitiveType.Bool then templates.print_bool exprMips
  else templates.print_int_or_string exprMips (if exprType = PrimitiveType.Int then 1 else 4)

/-- `exitAddSub` (`nimble2MIPS.py` lines 85-91): instantiate the `add_sub`
template with `add` for `+` and `sub` otherwise. -/
def exitAddSub (opText : String) (e0 e1 : String) : Option String :=
  some (templates.add_sub (if opText = "+" then "add" else "sub") e0 e1)

/-- `exitMulDiv` (`nimble2MIPS.py` line 130): the body is `pass`, so no
`mips` annotation is written. -/
def exitMulDiv (_opText : String) (_e0 _e1 : String) : Option String := none

/-- `exitCompare` (`nimble2MIPS.py` line 124): the body is `pass`, so no
`mips` annotation is written. -/
def exitCompare (_opText : String) (_e0 _e1 : String) : Option String := none

/-- `exitNeg` (`nimble2MIPS.py` line 115): `pass`. -/
def exitNeg (_opText : String) (_e : String) : Option String := none

/-- `exitVariable` (`nimble2MIPS.py` line 127): `pass`. -/
def exitVariable (_name : String) : Option String := none

/-- `exitAssignment` (`nimble2MIPS.py` line 109): `pass`. -/
def exitAssignment (_name : String) (_e : String) : Option String := none

/-- The data-section lines built by `exitScript`'s comprehension, one line
`f'{label}: .asciiz {string}'` per pool entry, in insertion order. -/
def string_literal_lines (g : MIPSGenerator) : List String :=
  g.string_literals.map (fun p => p.1 ++ ": .asciiz " ++ p.2)

/-- `exitScript` (`nimble2MIPS.py` lines 38-43): join the data-section
lines with newlines and instantiate the `script` envelope around the main
fragment. -/
def exitScript (g : MIPSGenerator) (main_mips : String) : String :=
  templates.script (String.intercalate "\n" g.string_literal_lines) main_mips

end MIPSGenerator

/-- A sequence of `unique_label` calls with the given bases, threading the
generator state; returns the labels in call order. -/
def run_unique_labels : MIPSGenerator → List String → List String × MIPSGenerator
  | g, [] => ([], g)
  | g, b :: bs =>
    let (l, g') := g.unique_label b
    let (ls, g'') := run_unique_labels g' bs
    (l :: ls, g'')

/-- The labels of the fixed envelope emitted by the `script` template
(data-section literals, subroutine labels, `main` and `halt`). -/
def fixed_labels : List String :=
  ["true_string", "false_string", "true_false_string", "choose_false",
   "end_true_false_string", "main", "halt"]

/-- Numeric value of a decimal digit character (proof helper). -/
def charVal (c : Char) : Nat := c.toNat - 48

/-- Value of a most-significant-first digit character sequence (proof
helper, a left inverse of `decimalChars`). -/
def digitsVal (cs : List Char) : Nat := cs.foldl (fun a c => 10 * a + charVal c) 0

/-!
Helper lemmas: Python's decimal rendering of distinct counter values is
injective and digit-only, so two labels that share their generated suffix
share their counter value.
-/

theorem digitChar_lt10_toNat : ∀ d, d < 10 → (Nat.digitChar d).toNat = 48 + d := by decide

theorem digitChar_lt10_isDigit : ∀ d, d < 10 → (Nat.digitChar d).isDigit = true := by decide

theorem digit_ne_underscore (c : Char) (h : c.isDigit = true) : c ≠ '_' := by
  intro he
  rw [he] at h
  exact absurd h (by decide)

theorem digitsVal_append (xs : List Char) (c : Char) :
    digitsVal (xs ++ [c]) = 10 * digitsVal xs + charVal c := by
  simp [digitsVal, List.foldl_append]

theorem digitsVal_decimalCharsAux :
    ∀ fuel n, n < fuel → digitsVal (decimalCharsAux fuel n) = n := by
  intro fuel
  induction fuel with
  | zero => intro n h; omega
  | succ f ih =>
    intro n h
    rw [decimalCharsAux]
    by_cases h10 : n < 10
    · rw [if_pos h10]
      have hc := digitChar_lt10_toNat n h10
      simp [digitsVal, charVal, hc]
    · rw [if_neg h10]
      rw [digitsVal_append, ih (n / 10) (by omega)]
      have hm : n % 10 < 10 := Nat.mod_lt _ (by omega)
      rw [charVal, digitChar_lt10_toNat _ hm]
      omega

theorem digitsVal_decimalChars (n : Nat) : digitsVal (decimalChars n) = n :=
  digitsVal_decimalCharsAux (n + 1) n (by omega)

theorem decimalChars_inj {n1 n2 : Nat} (h : decimalChars n1 = decimalChars n2) : n1 = n2 := by
  have h1 := digitsVal_decimalChars n1
  rw [h, digitsVal_decimalChars] at h1
  exact h1.symm

theorem decimalCharsAux_digits :
    ∀ fuel n, ∀ c ∈ decimalCharsAux fuel n, c.isDigit = true := by
  intro fuel
  induction fuel with
  | zero => intro n c hc; simp [decimalCharsAux] at hc
  | succ f ih =>
    intro n c hc
    rw [decimalCharsAux] at hc
    by_cases h10 : n < 10
    · rw [if_pos h10, List.mem_singleton] at hc
      rw [hc]
      exact digitChar_lt10_isDigit n h10
    · rw [if_neg h10] at hc
      rcases List.mem_append.mp hc with hl | hr
      · exact ih (n / 10) c hl
      · rw [List.mem_singleton] at hr
        rw [hr]
        exact digitChar_lt10_isDigit _ (Nat.mod_lt _ (by omega))

theorem decimalChars_digits (n : Nat) : ∀ c ∈ decimalChars n, c.isDigit = true :=
  decimalCharsAux_digits (n + 1) n

theorem append_underscore_inj :
    ∀ (as1 as2 bs1 bs2 : List Char), (∀ c ∈ as1, c ≠ '_') → (∀ c ∈ as2, c ≠ '_') →
      as1 ++ '_' :: bs1 = as2 ++ '_' :: bs2 → as1 = as2 ∧ bs1 = bs2 := by
  intro as1
  induction as1 with
  | nil =>
    intro as2 bs1 bs2 _ h2 h
    cases as2 with
    | nil => simpa using h
    | cons a t =>
      exfalso
      have : '_' = a := by simpa using congrArg (List.headD · '_') h
      exact h2 a (by simp) this.symm
  | cons a1 t1 ih =>
    intro as2 bs1 bs2 h1 h2 h
    cases as2 with
    | nil =>
      exfalso
      have : a1 = '_' := by simpa using congrArg (List.headD · '_') h
      exact h1 a1 (by simp) this
    | cons a2 t2 =>
      have hh : a1 = a2 := by simpa using congrArg (List.headD · '_') h
      have ht : t1 ++ '_' :: bs1 = t2 ++ '_' :: bs2 := by simpa using congrArg List.tail h
      have := ih t2 bs1 bs2 (fun c hc => h1 c (by simp [hc])) (fun c hc => h2 c (by simp [hc])) ht
      exact ⟨by rw [hh, this.1], this.2⟩

theorem label_decimal_inj (b1 b2 : String) (n1 n2 : Nat)
    (h : b1 ++ "_" ++ decimal n1 = b2 ++ "_" ++ decimal n2) : n1 = n2 := by
  have hd := congrArg String.data h
  rw [String.data_append, String.data_append, String.data_append, String.data_append] at hd
  have hd' : b1.data ++ '_' :: decimalChars n1 = b2.data ++ '_' :: decimalChars n2 := by
    simpa [decimal] using hd
  have hrev := congrArg List.reverse hd'
  rw [List.reverse_append, List.reverse_append, List.reverse_cons, List.reverse_cons] at hrev
  have hrev' : (decimalChars n1).reverse ++ '_' :: b1.data.reverse
      = (decimalChars n2).reverse ++ '_' :: b2.data.reverse := by
    simpa [List.append_assoc] using hrev
  have hfree1 : ∀ c ∈ (decimalChars n1).reverse, c ≠ '_' := by
    intro c hc
    exact digit_ne_underscore c (decimalChars_digits n1 c (List.mem_reverse.mp hc))
  have hfree2 : ∀ c ∈ (decimalChars n2).reverse, c ≠ '_' := by
    intro c hc
    exact digit_ne_underscore c (decimalChars_digits n2 c (List.mem_reverse.mp hc))
  have := append_underscore_inj _ _ _ _ hfree1 hfree2 hrev'
  exact decimalChars_inj (List.reverse_injective this.1)

theorem pyStr_nonneg (i : Int) (h : 0 ≤ i) : pyStr i = decimal i.toNat := by
  rw [pyStr, if_neg (by omega)]

theorem label_pyStr_inj (b1 b2 : String) (i1 i2 : Int) (h1 : 0 ≤ i1) (h2 : 0 ≤ i2)
    (h : b1 ++ "_" ++ pyStr i1 = b2 ++ "_" ++ pyStr i2) : i1 = i2 := by
  rw [pyStr_nonneg _ h1, pyStr_nonneg _ h2] at h
  have := label_decimal_inj _ _ _ _ h
  omega

theorem run_unique_labels_cons (g : MIPSGenerator) (b : String) (bs : List String) :
    run_unique_labels g (b :: bs)
      = ((b ++ "_" ++ pyStr (g.label_index + 1)) ::
          (run_unique_labels { g with label_index := g.label_index + 1 } bs).1,
         (run_unique_labels { g with label_index := g.label_index + 1 } bs).2) := by
  simp [run_unique_labels, MIPSGenerator.unique_label]

theorem run_unique_labels_mem :
    ∀ (bs : List String) (g : MIPSGenerator) (l : String), l ∈ (run_unique_labels g bs).1 →
      ∃ b i, b ∈ bs ∧ g.label_index < i ∧ l = b ++ "_" ++ pyStr i := by
  intro bs
  induction bs with
  | nil => intro g l hl; simp [run_unique_labels] at hl
  | cons b bs ih =>
    intro g l hl
    rw [run_unique_labels_cons] at hl
    rcases List.mem_cons.mp hl with h | h
    · exact ⟨b, g.label_index + 1, by simp, by omega, h⟩
    · rcases ih _ l h with ⟨b', i, hb, hi, he⟩
      simp only at hi
      exact ⟨b', i, by simp [hb], by omega, he⟩

theorem run_unique_labels_pairwise :
    ∀ (bs : List String) (g : MIPSGenerator), -1 ≤ g.label_index →
      ((run_unique_labels g bs).1).Pairwise (· ≠ ·) := by
  intro bs
  induction bs with
  | nil => intro g _; simp [run_unique_labels]
  | cons b bs ih =>
    intro g hg
    rw [run_unique_labels_cons]
    refine List.Pairwise.cons ?_ (ih _ (by simp; omega))
    intro l hl heq
    rcases run_unique_labels_mem bs _ l hl with ⟨b', i, _, hi, he⟩
    simp only at hi
    have := label_pyStr_inj b b' (g.label_index + 1) i (by omega) (by omega) (by rw [heq, he])
    omega

theorem label_ne_fixed (b : String) (n : Nat) (f : String)
    (hne : f.data.take (b.data.length + 1) ≠ b.data ++ ['_']) :
    b ++ "_" ++ decimal n ≠ f := by
  intro h
  have hd := congrArg String.data h
  rw [String.data_append, String.data_append] at hd
  have hd' : (b.data ++ ['_']) ++ decimalChars n = f.data := by
    simpa [decimal] using hd
  have ht := congrArg (List.take ((b.data ++ ['_']).length)) hd'
  rw [List.take_left] at ht
  have hlen : (b.data ++ ['_']).length = b.data.length + 1 := by simp
  rw [hlen] at ht
  exact hne ht.symm

theorem gen_label_not_fixed (b : String) (n : Nat) (hb : b = "endif" ∨ b = "string") :
    (b ++ "_" ++ decimal n) ∉ fixed_labels := by
  rcases hb with h | h <;> subst h <;>
    · intro hmem
      simp only [fixed_labels, List.mem_cons, List.not_mem_nil, or_false] at hmem
      rcases hmem with h | h | h | h | h | h | h <;>
        exact label_ne_fixed _ n _ (by decide) h

theorem Scope.symbols_define (sc : Scope) (n : String) (t : PrimitiveType) :
    (sc.define n t).symbols = sc.symbols ++ [⟨n, t⟩] := by
  cases sc <;> rfl

theorem Scope.resolve_locally_define_self (sc : Scope) (n : String) (t : PrimitiveType)
    (h : sc.resolve_locally n = none) :
    (sc.define n t).resolve_locally n = some ⟨n, t⟩ := by
  rw [Scope.resolve_locally] at h ⊢
  rw [Scope.symbols_define, List.find?_append, h]
  simp

theorem dictSet_fresh (d : List (String × String)) (k v : String)
    (h : ∀ p ∈ d, p.1 ≠ k) : dictSet d k v = d ++ [(k, v)] := by
  rw [dictSet, if_neg]
  intro hc
  rcases List.any_eq_true.mp hc with ⟨p, hp, he⟩
  exact h p hp (by simpa using he)

/-!
The claims.
-/

/-- C1: the claim states that `do_semantic_analysis` runs both passes to
completion on every parsed tree and then raises the aggregate
`NimbleSemanticErrors` exactly when `total_entries() > 0`, otherwise
returning the annotated tree, with pass 2 re-entering the pass-1 scopes
through the `scope` annotations.  The code instead crashes on every tree:
pass 2's `enterScript` reads `self.current_scope.enclosing_scope` while
`current_scope` is still `None`, raising `AttributeError` before any node
is checked (the only other possible outcome is a `KeyError` from an
invalid declared-type token during pass 1).  `do_semantic_analysis` never
returns a tree and never raises the aggregate. -/
theorem c1_analysis_always_raises_attribute_error (s : Script) :
    do_semantic_analysis s = .error PyExn.attributeError
    ∨ do_semantic_analysis s = .error PyExn.keyError := by
  unfold do_semantic_analysis
  cases hp : pass1 s with
  | error e =>
    cases e
    · exact .inl rfl
    · exact .inr rfl
  | ok v =>
    obtain ⟨g, m, log⟩ := v
    exact .inl rfl

/-- C2: the claim states that a variable reference whose name does not
resolve in the scope chain gets type `ERROR` plus exactly one
`UNDEFINED_NAME` entry without abnormal termination, and that a resolved
reference gets the symbol's type.  The resolved half holds (second
conjunct), but on an unresolved name `exitVariable` evaluates
`self.current_scope.resolve(name).type` with `resolve` returning `None`,
raising `AttributeError` (first conjunct, at the concrete failing input:
reference `x` in an empty `$main`/`$global` chain). -/
theorem c2_variable_reference_types :
    InferTypesAndCheckConstraints.exitVariable
        (some (Scope.inner "$main" PrimitiveType.Void
          (Scope.outer "$global" PrimitiveType.Void []) [])) "x" []
      = .error PyError.attributeError
    ∧ ∀ (sc : Scope) (sym : Symbol) (name : String) (log : ErrorLog),
        sc.resolve name = some sym →
        InferTypesAndCheckConstraints.exitVariable (some sc) name log = .ok (sym.type, log) := by
  refine ⟨rfl, ?_⟩
  intro sc sym name log hres
  simp [InferTypesAndCheckConstraints.exitVariable, hres, PrimitiveType.pyFalsy]

/-- Witness for the hypothesis-bearing half of the C2 theorem: a scope
declaring `x : Int` makes the reference `x` resolve to type `Int`. -/
theorem c2_variable_reference_types_witness :
    InferTypesAndCheckConstraints.exitVariable
        (some (Scope.inner "$main" PrimitiveType.Void
          (Scope.outer "$global" PrimitiveType.Void []) [⟨"x", PrimitiveType.Int⟩])) "x" []
      = .ok (PrimitiveType.Int, []) :=
  c2_variable_reference_types.2
    (Scope.inner "$main" PrimitiveType.Void
      (Scope.outer "$global" PrimitiveType.Void []) [⟨"x", PrimitiveType.Int⟩])
    ⟨"x", PrimitiveType.Int⟩ "x" [] (by decide)

/-- C3: the claim states that an assignment to an unresolved target logs
exactly one `UNDEFINED_NAME` without crashing, a resolved target of a
different type logs exactly one `ASSIGN_TO_WRONG_TYPE`, and equal types
log nothing.  The two resolved halves hold (second and third conjuncts),
but the unresolved case crashes: `exitAssignment` evaluates
`self.current_scope.resolve(name).type` with `resolve` returning `None`,
raising `AttributeError` (first conjunct, at the failing input `x = 5`
with `x` never declared). -/
theorem c3_assignment_checks :
    InferTypesAndCheckConstraints.exitAssignment
        (some (Scope.inner "$main" PrimitiveType.Void
          (Scope.outer "$global" PrimitiveType.Void []) [])) "x" PrimitiveType.Int []
      = .error PyError.attributeError
    ∧ (∀ (sc : Scope) (sym : Symbol) (name : String) (t : PrimitiveType) (log : ErrorLog),
        sc.resolve name = some sym → sym.type ≠ t →
        InferTypesAndCheckConstraints.exitAssignment (some sc) name t log
          = .ok (log ++ [Category.ASSIGN_TO_WRONG_TYPE]))
    ∧ (∀ (sc : Scope) (sym : Symbol) (name : String) (t : PrimitiveType) (log : ErrorLog),
        sc.resolve name = some sym → sym.type = t →
        InferTypesAndCheckConstraints.exitAssignment (some sc) name t log = .ok log) := by
  refine ⟨rfl, ?_, ?_⟩
  · intro sc sym name t log hres hne
    simp [InferTypesAndCheckConstraints.exitAssignment, hres, PrimitiveType.pyFalsy, hne,
      InferTypesAndCheckConstraints.log_invalid_assign]
  · intro sc sym name t log hres heq
    simp [InferTypesAndCheckConstraints.exitAssignment, hres, PrimitiveType.pyFalsy, heq]

/-- Witness for the hypothesis-bearing halves of the C3 theorem: with
`x : Int` declared, assigning a `String` expression logs one
`ASSIGN_TO_WRONG_TYPE` entry and assigning an `Int` expression logs
nothing. -/
theorem c3_assignment_checks_witness :
    InferTypesAndCheckConstraints.exitAssignment
        (some (Scope.inner "$main" PrimitiveType.Void
          (Scope.outer "$global" PrimitiveType.Void []) [⟨"x", PrimitiveType.Int⟩]))
        "x" PrimitiveType.String []
      = .ok [Category.ASSIGN_TO_WRONG_TYPE]
    ∧ InferTypesAndCheckConstraints.exitAssignment
        (some (Scope.inner "$main" PrimitiveType.Void
          (Scope.outer "$global" PrimitiveType.Void []) [⟨"x", PrimitiveType.Int⟩]))
        "x" PrimitiveType.Int []
      = .ok [] :=
  ⟨c3_assignment_checks.2.1
      (Scope.inner "$main" PrimitiveType.Void
        (Scope.outer "$global" PrimitiveType.Void []) [⟨"x", PrimitiveType.Int⟩])
      ⟨"x", PrimitiveType.Int⟩ "x" PrimitiveType.String [] (by decide) (by decide),
    c3_assignment_checks.2.2
      (Scope.inner "$main" PrimitiveType.Void
        (Scope.outer "$global" PrimitiveType.Void []) [⟨"x", PrimitiveType.Int⟩])
      ⟨"x", PrimitiveType.Int⟩ "x" PrimitiveType.Int [] (by decide) (by decide)⟩

/-- C4: for every pair of operand types, `+` yields `Int` exactly on
`(Int, Int)` and `String` exactly on `(String, String)`; `-`, `*`, `/`
yield `Int` exactly on `(Int, Int)`; the comparisons yield `Bool` exactly
on `(Int, Int)`; every other combination yields type `ERROR` and appends
exactly one `INVALID_BINARY_OP` entry. -/
theorem c4_binary_operator_type_matrix (t0 t1 : PrimitiveType) (log : ErrorLog) :
    (t0 = PrimitiveType.Int ∧ t1 = PrimitiveType.Int →
      InferTypesAndCheckConstraints.exitAddSub "+" t0 t1 log = (PrimitiveType.Int, log)
      ∧ InferTypesAndCheckConstraints.exitAddSub "-" t0 t1 log = (PrimitiveType.Int, log)
      ∧ InferTypesAndCheckConstraints.exitMulDiv "*" t0 t1 log = (PrimitiveType.Int, log)
      ∧ InferTypesAndCheckConstraints.exitMulDiv "/" t0 t1 log = (PrimitiveType.Int, log)
      ∧ InferTypesAndCheckConstraints.exitCompare "<" t0 t1 log = (PrimitiveType.Bool, log)
      ∧ InferTypesAndCheckConstraints.exitCompare "<=" t0 t1 log = (PrimitiveType.Bool, log)
      ∧ InferTypesAndCheckConstraints.exitCompare "==" t0 t1 log = (PrimitiveType.Bool, log))
    ∧ (t0 = PrimitiveType.String ∧ t1 = PrimitiveType.String →
      InferTypesAndCheckConstraints.exitAddSub "+" t0 t1 log = (PrimitiveType.String, log))
    ∧ (¬(t0 = PrimitiveType.Int ∧ t1 = PrimitiveType.Int) →
      ¬(t0 = PrimitiveType.String ∧ t1 = PrimitiveType.String) →
      InferTypesAndCheckConstraints.exitAddSub "+" t0 t1 log
        = (PrimitiveType.ERROR, log ++ [Category.INVALID_BINARY_OP]))
    ∧ (¬(t0 = PrimitiveType.Int ∧ t1 = PrimitiveType.Int) →
      InferTypesAndCheckConstraints.exitAddSub "-" t0 t1 log
        = (PrimitiveType.ERROR, log ++ [Category.INVALID_BINARY_OP])
      ∧ InferTypesAndCheckConstraints.exitMulDiv "*" t0 t1 log
        = (PrimitiveType.ERROR, log ++ [Category.INVALID_BINARY_OP])
      ∧ InferTypesAndCheckConstraints.exitMulDiv "/" t0 t1 log
        = (PrimitiveType.ERROR, log ++ [Category.INVALID_BINARY_OP])
      ∧ InferTypesAndCheckConstraints.exitCompare "<" t0 t1 log
        = (PrimitiveType.ERROR, log ++ [Category.INVALID_BINARY_OP])
      ∧ InferTypesAndCheckConstraints.exitCompare "<=" t0 t1 log
        = (PrimitiveType.ERROR, log ++ [Category.INVALID_BINARY_OP])
      ∧ InferTypesAndCheckConstraints.exitCompare "==" t0 t1 log
        = (PrimitiveType.ERROR, log ++ [Category.INVALID_BINARY_OP])) := by
  cases t0 <;> cases t1 <;>
    simp [InferTypesAndCheckConstraints.exitAddSub, InferTypesAndCheckConstraints.exitMulDiv,
      InferTypesAndCheckConstraints.exitCompare, InferTypesAndCheckConstraints.binary_on_ints]

/-- Witness for the hypothesis-bearing clauses of the C4 theorem, at the
pairs `(Int, Int)`, `(String, String)` and `(Bool, String)`. -/
theorem c4_binary_operator_type_matrix_witness :
    InferTypesAndCheckConstraints.exitAddSub "+" PrimitiveType.Int PrimitiveType.Int []
      = (PrimitiveType.Int, [])
    ∧ InferTypesAndCheckConstraints.exitAddSub "+" PrimitiveType.String PrimitiveType.String []
      = (PrimitiveType.String, [])
    ∧ InferTypesAndCheckConstraints.exitAddSub "+" PrimitiveType.Bool PrimitiveType.String []
      = (PrimitiveType.ERROR, [Category.INVALID_BINARY_OP])
    ∧ InferTypesAndCheckConstraints.exitCompare "<" PrimitiveType.Bool PrimitiveType.String []
      = (PrimitiveType.ERROR, [Category.INVALID_BINARY_OP]) :=
  ⟨((c4_binary_operator_type_matrix PrimitiveType.Int PrimitiveType.Int []).1
      ⟨rfl, rfl⟩).1,
    (c4_binary_operator_type_matrix PrimitiveType.String PrimitiveType.String []).2.1
      ⟨rfl, rfl⟩,
    (c4_binary_operator_type_matrix PrimitiveType.Bool PrimitiveType.String []).2.2.1
      (by decide) (by decide),
    ((c4_binary_operator_type_matrix PrimitiveType.Bool PrimitiveType.String []).2.2.2
      (by decide)).2.2.2.1⟩

/-- C5: declaring a name twice in one scope makes pass 1 log exactly one
`DUPLICATE_NAME` entry for the second declaration and leave the scope
unchanged, so the first declaration's type stays bound: the first
`exitVarDec` defines the name with its declared type, and the second one
returns the scope untouched with one `DUPLICATE_NAME` appended, the name
still resolving locally to the first type. -/
theorem c5_duplicate_declaration_first_wins (sc : Scope) (name tok1 tok2 : String)
    (init1 init2 : Option Expr) (t : PrimitiveType) (log : ErrorLog)
    (hfresh : sc.resolve_locally name = none)
    (htok : PrimitiveType.fromName tok1 = some t) :
    DefineScopesAndSymbols.exitVarDec sc log ⟨name, tok1, init1⟩ = .ok (sc.define name t, log)
    ∧ (sc.define name t).resolve_locally name = some ⟨name, t⟩
    ∧ DefineScopesAndSymbols.exitVarDec (sc.define name t) log ⟨name, tok2, init2⟩
        = .ok (sc.define name t, log ++ [Category.DUPLICATE_NAME]) := by
  have h2 := Scope.resolve_locally_define_self sc name t hfresh
  refine ⟨?_, h2, ?_⟩
  · simp [DefineScopesAndSymbols.exitVarDec, DefineScopesAndSymbols.duplicate_name, hfresh, htok]
  · simp [DefineScopesAndSymbols.exitVarDec, DefineScopesAndSymbols.duplicate_name, h2]

/-- Witness for the C5 theorem: an empty `$main` scope, `x` first declared
as `Int` and then re-declared as `Bool`. -/
theorem c5_duplicate_declaration_first_wins_witness :
    DefineScopesAndSymbols.exitVarDec
        (Scope.inner "$main" PrimitiveType.Void (Scope.outer "$global" PrimitiveType.Void []) [])
        [] ⟨"x", "Int", none⟩
      = .ok ((Scope.inner "$main" PrimitiveType.Void
          (Scope.outer "$global" PrimitiveType.Void []) []).define "x" PrimitiveType.Int, [])
    ∧ ((Scope.inner "$main" PrimitiveType.Void
          (Scope.outer "$global" PrimitiveType.Void []) []).define "x" PrimitiveType.Int).resolve_locally "x"
        = some ⟨"x", PrimitiveType.Int⟩
    ∧ DefineScopesAndSymbols.exitVarDec
        ((Scope.inner "$main" PrimitiveType.Void
          (Scope.outer "$global" PrimitiveType.Void []) []).define "x" PrimitiveType.Int)
        [] ⟨"x", "Bool", none⟩
      = .ok ((Scope.inner "$main" PrimitiveType.Void
          (Scope.outer "$global" PrimitiveType.Void []) []).define "x" PrimitiveType.Int,
          [Category.DUPLICATE_NAME]) :=
  c5_duplicate_declaration_first_wins
    (Scope.inner "$main" PrimitiveType.Void (Scope.outer "$global" PrimitiveType.Void []) [])
    "x" "Int" "Bool" none none PrimitiveType.Int [] (by decide) (by decide)

/-- C6: unary `-` on an `Int` operand yields `Int`, unary `!` on a `Bool`
operand yields `Bool`, and every other operator/operand-type combination
yields type `ERROR` and appends exactly one `INVALID_NEGATION` entry. -/
theorem c6_unary_negation_rules (op : String) (t : PrimitiveType) (log : ErrorLog) :
    InferTypesAndCheckConstraints.exitNeg "-" PrimitiveType.Int log = (PrimitiveType.Int, log)
    ∧ InferTypesAndCheckConstraints.exitNeg "!" PrimitiveType.Bool log = (PrimitiveType.Bool, log)
    ∧ (t ≠ PrimitiveType.Int →
        InferTypesAndCheckConstraints.exitNeg "-" t log
          = (PrimitiveType.ERROR, log ++ [Category.INVALID_NEGATION]))
    ∧ (t ≠ PrimitiveType.Bool →
        InferTypesAndCheckConstraints.exitNeg "!" t log
          = (PrimitiveType.ERROR, log ++ [Category.INVALID_NEGATION]))
    ∧ (op ≠ "-" → op ≠ "!" →
        InferTypesAndCheckConstraints.exitNeg op t log
          = (PrimitiveType.ERROR, log ++ [Category.INVALID_NEGATION])) := by
  refine ⟨rfl, rfl, ?_, ?_, ?_⟩
  · intro h
    simp [InferTypesAndCheckConstraints.exitNeg, h]
  · intro h
    simp [InferTypesAndCheckConstraints.exitNeg, h]
  · intro h1 h2
    simp [InferTypesAndCheckConstraints.exitNeg, h1, h2]

/-- Witness for the hypothesis-bearing clauses of the C6 theorem: `-` on a
`Bool`, `!` on an `Int`, and an unknown operator. -/
theorem c6_unary_negation_rules_witness :
    InferTypesAndCheckConstraints.exitNeg "-" PrimitiveType.Bool []
      = (PrimitiveType.ERROR, [Category.INVALID_NEGATION])
    ∧ InferTypesAndCheckConstraints.exitNeg "!" PrimitiveType.Int []
      = (PrimitiveType.ERROR, [Category.INVALID_NEGATION])
    ∧ InferTypesAndCheckConstraints.exitNeg "?" PrimitiveType.Int []
      = (PrimitiveType.ERROR, [Category.INVALID_NEGATION]) :=
  ⟨(c6_unary_negation_rules "-" PrimitiveType.Bool []).2.2.1 (by decide),
    (c6_unary_negation_rules "!" PrimitiveType.Int []).2.2.2.1 (by decide),
    (c6_unary_negation_rules "?" PrimitiveType.Int []).2.2.2.2 (by decide) (by decide)⟩

/-- C7: `unique_label(base)` returns `base ++ "_" ++ n` for the strictly
increasing counter value `n`, so any sequence of calls during one
compilation (from a fresh `MIPSGenerator`, whose counter starts at `-1`)
returns pairwise textually distinct labels; and, for the bases the
generator actually uses (`endif` and `string`), no returned label ever
equals a fixed label of the program envelope, so no two labels in one
generated program are equal. -/
theorem c7_unique_labels_distinct (bases : List String) :
    ((run_unique_labels MIPSGenerator.new bases).1).Pairwise (· ≠ ·)
    ∧ ((∀ b ∈ bases, b = "endif" ∨ b = "string") →
        ∀ l ∈ (run_unique_labels MIPSGenerator.new bases).1, l ∉ fixed_labels) := by
  constructor
  · exact run_unique_labels_pairwise bases _ (by decide)
  · intro hb l hl
    rcases run_unique_labels_mem bases _ l hl with ⟨b, i, hbm, hi, he⟩
    have hnn : 0 ≤ i := by
      simp [MIPSGenerator.new] at hi
      omega
    rw [he, pyStr_nonneg _ hnn]
    exact gen_label_not_fixed b i.toNat (hb b hbm)

/-- Witness for the hypothesis-bearing half of the C7 theorem: two calls
with bases `string` and `endif` give pairwise distinct labels that avoid
the fixed envelope labels. -/
theorem c7_unique_labels_distinct_witness :
    ((run_unique_labels MIPSGenerator.new ["string", "endif"]).1).Pairwise (· ≠ ·)
    ∧ ∀ l ∈ (run_unique_labels MIPSGenerator.new ["string", "endif"]).1, l ∉ fixed_labels :=
  ⟨(c7_unique_labels_distinct ["string", "endif"]).1,
    (c7_unique_labels_distinct ["string", "endif"]).2 (by decide)⟩

/-- C8: printing branches on the statically computed type: a `Bool`
expression's fragment calls the shared `true_false_string` subroutine
before the print service, while `Int` and `String` fragments invoke the
print service directly with service selectors 1 and 4 respectively. -/
theorem c8_print_branches_on_static_type (e : String) :
    MIPSGenerator.exitPrint PrimitiveType.Bool e
      = e ++ "\njal    true_false_string\nli     $v0 4\nsyscall\n"
    ∧ MIPSGenerator.exitPrint PrimitiveType.Int e
      = e ++ "\nmove   $a0 $t0\nli     $v0 " ++ "1" ++ "\nsyscall\n"
    ∧ MIPSGenerator.exitPrint PrimitiveType.String e
      = e ++ "\nmove   $a0 $t0\nli     $v0 " ++ "4" ++ "\nsyscall\n" :=
  ⟨rfl, rfl, rfl⟩

/-- C9 counterexample: the claim asserts that every multiplication,
division and comparison node gets a push/evaluate/pop/combine fragment,
but `exitMulDiv` and `exitCompare` are `pass` stubs that write no `mips`
annotation at all, here shown at concrete operand fragments. -/
theorem c9_muldiv_compare_produce_no_fragment :
    MIPSGenerator.exitMulDiv "*" "li     $t0 2" "li     $t0 3" = none
    ∧ MIPSGenerator.exitCompare "<" "li     $t0 2" "li     $t0 3" = none :=
  ⟨rfl, rfl⟩

/-- C9 (amended): for addition and subtraction nodes the generated
fragment emits the left operand's fragment, pushes the accumulator `$t0`
onto the `$sp` stack, emits the right operand's fragment, pops the left
value into `$s1`, and combines with `add`/`sub` into the accumulator;
multiplication, division and comparison handlers are unimplemented. -/
theorem c9_addsub_fragment_shape (e0 e1 : String) :
    MIPSGenerator.exitAddSub "+" e0 e1
      = some (e0 ++ "\nsw     $t0 0($sp) \naddiu  $sp $sp -4 \n" ++ e1
          ++ "\nlw     $s1 4($sp) \n" ++ "add" ++ "    $t0 $s1 $t0 \naddiu  $sp $sp 4\n")
    ∧ MIPSGenerator.exitAddSub "-" e0 e1
      = some (e0 ++ "\nsw     $t0 0($sp) \naddiu  $sp $sp -4 \n" ++ e1
          ++ "\nlw     $s1 4($sp) \n" ++ "sub" ++ "    $t0 $s1 $t0 \naddiu  $sp $sp 4\n") :=
  ⟨rfl, rfl⟩

/-- C10: every string-literal occurrence allocates a fresh label: from any
generator state whose counter is at least `-1` and whose pool keys are
earlier `string`-based labels, two occurrences of the identical literal
text produce two distinct labels, two separate pool entries, and two
separate lines of the data section. -/
theorem c10_string_literals_never_pooled (g : MIPSGenerator) (text : String)
    (hidx : -1 ≤ g.label_index)
    (hkeys : ∀ p ∈ g.string_literals,
      ∃ j : Int, 0 ≤ j ∧ j ≤ g.label_index ∧ p.1 = "string" ++ "_" ++ pyStr j) :
    ∃ l1 l2,
      l1 ≠ l2
      ∧ (g.exitStringLiteral text).1 = "la     $t0 " ++ l1
      ∧ ((g.exitStringLiteral text).2.exitStringLiteral text).1 = "la     $t0 " ++ l2
      ∧ ((g.exitStringLiteral text).2.exitStringLiteral text).2.string_literals
          = g.string_literals ++ [(l1, text), (l2, text)]
      ∧ ((g.exitStringLiteral text).2.exitStringLiteral text).2.string_literal_lines
          = g.string_literal_lines
            ++ [l1 ++ ": .asciiz " ++ text, l2 ++ ": .asciiz " ++ text] := by
  have hfresh1 : dictSet g.string_literals ("string" ++ "_" ++ pyStr (g.label_index + 1)) text
      = g.string_literals ++ [("string" ++ "_" ++ pyStr (g.label_index + 1), text)] := by
    apply dictSet_fresh
    intro p hp hk
    rcases hkeys p hp with ⟨j, hj0, hjle, hje⟩
    rw [hje] at hk
    have := label_pyStr_inj _ _ _ _ hj0 (by omega) hk
    omega
  have hfresh2 :
      dictSet (g.string_literals ++ [("string" ++ "_" ++ pyStr (g.label_index + 1), text)])
        ("string" ++ "_" ++ pyStr (g.label_index + 1 + 1)) text
      = g.string_literals ++ [("string" ++ "_" ++ pyStr (g.label_index + 1), text),
          ("string" ++ "_" ++ pyStr (g.label_index + 1 + 1), text)] := by
    rw [dictSet_fresh]
    · simp
    · intro p hp
      rcases List.mem_append.mp hp with hold | hnew
      · rcases hkeys p hold with ⟨j, hj0, hjle, hje⟩
        rw [hje]
        intro hk
        have := label_pyStr_inj _ _ _ _ hj0 (by omega) hk
        omega
      · rw [List.mem_singleton] at hnew
        rw [hnew]
        intro hk
        have := label_pyStr_inj _ _ _ _ (by omega) (by omega) hk
        omega
  have e1 : g.exitStringLiteral text
      = ("la     $t0 " ++ ("string" ++ "_" ++ pyStr (g.label_index + 1)),
         ⟨g.label_index + 1,
          g.string_literals ++ [("string" ++ "_" ++ pyStr (g.label_index + 1), text)],
          g.current_scope⟩) := by
    simp only [MIPSGenerator.exitStringLiteral, MIPSGenerator.unique_label]
    rw [hfresh1]
  have e2 : (⟨g.label_index + 1,
      g.string_literals ++ [("string" ++ "_" ++ pyStr (g.label_index + 1), text)],
      g.current_scope⟩ : MIPSGenerator).exitStringLiteral text
      = ("la     $t0 " ++ ("string" ++ "_" ++ pyStr (g.label_index + 1 + 1)),
         ⟨g.label_index + 1 + 1,
          g.string_literals ++ [("string" ++ "_" ++ pyStr (g.label_index + 1), text),
            ("string" ++ "_" ++ pyStr (g.label_index + 1 + 1), text)],
          g.current_scope⟩) := by
    simp only [MIPSGenerator.exitStringLiteral, MIPSGenerator.unique_label]
    rw [hfresh2]
  refine ⟨"string" ++ "_" ++ pyStr (g.label_index + 1),
    "string" ++ "_" ++ pyStr (g.label_index + 1 + 1), ?_, ?_, ?_, ?_, ?_⟩
  · intro h
    have := label_pyStr_inj _ _ _ _ (by omega) (by omega) h
    omega
  · rw [e1]
  · rw [e1, e2]
  · rw [e1, e2]
  · rw [e1, e2]
    simp [MIPSGenerator.string_literal_lines]

/-- Witness for the C10 theorem: a fresh generator and the literal
`"hi"` (hypotheses hold trivially for the empty pool). -/
theorem c10_string_literals_never_pooled_witness :
    ∃ l1 l2,
      l1 ≠ l2
      ∧ (MIPSGenerator.new.exitStringLiteral "hi").1 = "la     $t0 " ++ l1
      ∧ ((MIPSGenerator.new.exitStringLiteral "hi").2.exitStringLiteral "hi").1
          = "la     $t0 " ++ l2
      ∧ ((MIPSGenerator.new.exitStringLiteral "hi").2.exitStringLiteral "hi").2.string_literals
          = MIPSGenerator.new.string_literals ++ [(l1, "hi"), (l2, "hi")]
      ∧ ((MIPSGenerator.new.exitStringLiteral "hi").2.exitStringLiteral "hi").2.string_literal_lines
          = MIPSGenerator.new.string_literal_lines
            ++ [l1 ++ ": .asciiz " ++ "hi", l2 ++ ": .asciiz " ++ "hi"] :=
  c10_string_literals_never_pooled MIPSGenerator.new "hi" (by decide) (by simp [MIPSGenerator.new])

end Nimble
